import Mathlib

/-!
MyVueRouter: the class of src/vue-router/history/src/MyVueRouter/index.js.

A shallow embedding of the `VueRouter` class: the module variable `_Vue`, the
`install` flag, the router objects (`options`, `routeMap`, `data.current`), the two
registered primitives `router-link` and `router-view`, and the `popstate` listener.

The route table is the object literal `{}` of the constructor, so it is modelled as
an ordinary JavaScript object: own data properties plus a prototype slot, with the
property reads and writes of `routeMap[k]` and `routeMap[k] = v` going through the
prototype chain.
-/

namespace MyVueRouter

/-! ## Values of the application and of the language -/

/-- Reference to a component owned by the application (the `component` of a route
entry).  Components are opaque to the router; they are ordinary objects whose
prototype chain ends in `Object.prototype` and that carry no own property named
`__proto__`. -/
structure Component where
  id : Nat
  deriving DecidableEq, Repr

/-- One entry `{path, component}` of `options.routes`. -/
structure Route where
  path : String
  component : Component
  deriving DecidableEq, Repr

/-- The configuration object handed to `new VueRouter(options)`. -/
structure Options where
  routes : List Route
  deriving DecidableEq, Repr

/-- The prototype slot of the route table: `Object.prototype` for the literal `{}`,
or a component once `routeMap['__proto__'] = component` has run. -/
inductive Proto where
  | objectPrototype
  | component (c : Component)
  deriving DecidableEq, Repr

/-- What a property read `routeMap[k]` can produce. -/
inductive Value where
  /-- No property of that name anywhere on the chain. -/
  | undefined
  /-- An own data property written by `createRouteMap`. -/
  | component (c : Component)
  /-- The intrinsic object `Object.prototype` (read of `__proto__` on a literal). -/
  | objectPrototype
  /-- The built-in function stored in `Object.prototype[name]`. -/
  | builtin (name : String)
  /-- The result of reading `key` through a component installed as prototype. -/
  | inherited (c : Component) (key : String)
  deriving DecidableEq, Repr

/-- Names of the data properties of `Object.prototype` (ECMA-262, with Annex B);
`__proto__` is its one accessor property and is handled apart. -/
def objectPrototypeMethods : List String :=
  ["constructor", "hasOwnProperty", "isPrototypeOf", "propertyIsEnumerable",
   "toLocaleString", "toString", "valueOf", "__defineGetter__", "__defineSetter__",
   "__lookupGetter__", "__lookupSetter__"]

/-- Every property name found on `Object.prototype`. -/
def objectPrototypeKeys : List String := "__proto__" :: objectPrototypeMethods

/-- An ordinary JavaScript object used as the route table. -/
structure JSObject where
  /-- Own data properties, in creation order. -/
  own : List (String × Component)
  /-- The `[[Prototype]]` slot. -/
  proto : Proto
  deriving DecidableEq, Repr

namespace JSObject

/-- The object literal `{}`. -/
def empty : JSObject := { own := [], proto := Proto.objectPrototype }

/-- Own property names, as `Object.keys` lists them. -/
def keys (o : JSObject) : List String := o.own.map Prod.fst

/-- Overwrite the value of an existing own property, keeping its position. -/
def replace (k : String) (c : Component) : List (String × Component) → List (String × Component)
  | [] => []
  | (k1, c1) :: rest => if k1 = k then (k1, c) :: rest else (k1, c1) :: replace k c rest

/-- The property read `o[k]`: an own property first, then the prototype chain.  On
`Object.prototype` the accessor `__proto__` returns the prototype of the receiver. -/
def get (o : JSObject) (k : String) : Value :=
  match o.own.lookup k with
  | some c => Value.component c
  | none =>
    match o.proto with
    | Proto.objectPrototype =>
      if k = "__proto__" then Value.objectPrototype
      else if k ∈ objectPrototypeMethods then Value.builtin k
      else Value.undefined
    | Proto.component p =>
      if k = "__proto__" then Value.component p
      else Value.inherited p k

/-- The assignment `o[k] = c`: an existing own property is overwritten; otherwise
the chain is searched for a setter, and the only one is `__proto__` of
`Object.prototype`, which replaces the prototype of the receiver by the object
assigned; any other name becomes a new own data property. -/
def set (o : JSObject) (k : String) (c : Component) : JSObject :=
  if k ∈ o.keys then { o with own := replace k c o.own }
  else if k = "__proto__" then { o with proto := Proto.component c }
  else { o with own := o.own ++ [(k, c)] }

end JSObject

/-! ## Routers -/

/-- A `VueRouter` instance: `this.options`, `this.routeMap` and `this.data.current`. -/
structure Router where
  options : Options
  routeMap : JSObject
  current : String
  deriving DecidableEq, Repr

/-- The fields the constructor assigns: the options as given, `{}`, and `'/'`. -/
def Router.fresh (options : Options) : Router :=
  { options := options, routeMap := JSObject.empty, current := "/" }

/-- Method `createRouteMap`: `forEach` over `options.routes`, each entry assigned with
`this.routeMap[route.path] = route.component`. -/
def createRouteMap (r : Router) : Router :=
  { r with routeMap :=
      r.options.routes.foldl (fun m route => m.set route.path route.component) r.routeMap }

/-- The paths occurring in a route list, in order. -/
def paths (routes : List Route) : List String := routes.map Route.path

/-- The component of the last entry of the list that carries path `p`, as the
specification words it (last entry wins). -/
def lastComponent (routes : List Route) (p : String) : Option Component :=
  (routes.reverse.find? (fun route => route.path = p)).map Route.component

/-! ## The framework, the browser and the module state -/

/-- Identity of a framework constructor (the `Vue` handed to `install`). -/
abbrev VueId := Nat

/-- Identity of a `VueRouter` instance: its index among the routers created. -/
abbrev RouterId := Nat

/-- The two component definitions given to `Vue.component`; the definition of
`router-view` closes over `self`, the router whose `initComponents` built it. -/
inductive Primitive where
  | routerLink
  | routerView (self : RouterId)
  deriving DecidableEq, Repr

/-- What this module changes on one framework constructor. -/
structure Framework where
  /-- Number of `beforeCreate` mixins registered through `Vue.mixin`. -/
  mixins : Nat
  /-- The calls `Vue.component(name, definition)`, oldest first; a later
  registration of a name overrides an earlier one. -/
  components : List (String × Primitive)
  /-- The property `Vue.prototype.$router`. -/
  router : Option RouterId
  deriving DecidableEq, Repr

/-- One entry pushed with `history.pushState(state, title, url)`; the state object
is always the literal `{}`. -/
structure HistoryEntry where
  title : String
  url : String
  deriving DecidableEq, Repr

/-- Everything the module reads and writes. -/
structure World where
  /-- The module variable `_Vue` (`none` while it is still undefined). -/
  _Vue : Option VueId
  /-- The flag `VueRouter.install.installed`. -/
  installed : Bool
  /-- The framework constructors of the page. -/
  frameworks : VueId → Framework
  /-- The router objects created so far. -/
  routers : List Router
  /-- The entries pushed on the browser history, oldest first. -/
  history : List HistoryEntry
  /-- The `popstate` listeners added to `window`, each bound to its router. -/
  listeners : List RouterId
  /-- The verdict of the browser on the url argument of `history.pushState`: the url
  must parse against the address of the document and stay on its origin; the call
  throws for any other url and pushes nothing. -/
  accepts : String → Bool

/-- The exceptions raised: a failing member access, and `history.pushState`
refusing its url. -/
inductive Error where
  | typeError
  | securityError
  deriving DecidableEq, Repr

/-- Result of running a method: it returns or throws, and in both cases the writes
made so far stay in the world. -/
inductive Outcome where
  | ok (w : World)
  | throw (e : Error) (w : World)

/-- The world an outcome leaves behind. -/
def Outcome.world : Outcome → World
  | Outcome.ok w => w
  | Outcome.throw _ w => w

/-- Whether the method returned normally. -/
def Outcome.returned : Outcome → Bool
  | Outcome.ok _ => true
  | Outcome.throw _ _ => false

/-- The optional second argument of `install`; the method never reads it. -/
structure PluginOptions where
  tag : Nat
  deriving DecidableEq, Repr

/-- Apply `f` to the element at position `i`, if there is one. -/
def modifyAt (f : Router → Router) : Nat → List Router → List Router
  | _, [] => []
  | 0, r :: rs => f r :: rs
  | i + 1, r :: rs => r :: modifyAt f i rs

/-- Write through a router reference. -/
def updateRouter (id : RouterId) (f : Router → Router) (w : World) : World :=
  { w with routers := modifyAt f id w.routers }

/-- Write on one framework constructor. -/
def updateFramework (Vue : VueId) (f : Framework → Framework) (w : World) : World :=
  { w with frameworks := Function.update w.frameworks Vue (f (w.frameworks Vue)) }

/-- Static method `install(Vue, options)`: returns at once when the flag is set;
otherwise sets the flag, records `Vue` in `_Vue` and registers the mixin on it. -/
def install (Vue : VueId) (_options : Option PluginOptions) (w : World) : World :=
  if w.installed then w
  else
    updateFramework Vue (fun fw => { fw with mixins := fw.mixins + 1 })
      { w with installed := true, _Vue := some Vue }

/-- The constructor: `this.options`, `this.routeMap = {}` and
`this.data = _Vue.observable(current: '/')`; the last statement throws while `_Vue`
is undefined, and then no router is produced. -/
def construct (options : Options) (w : World) : Except Error (RouterId × World) :=
  match w._Vue with
  | none => Except.error Error.typeError
  | some _ =>
    Except.ok (w.routers.length, { w with routers := w.routers ++ [Router.fresh options] })

/-- Method `initComponents(Vue)`: `Vue.component('router-link', ..)` and then
`Vue.component('router-view', ..)` with `self = this`. -/
def initComponents (Vue : VueId) (self : RouterId) (w : World) : World :=
  updateFramework Vue (fun fw => { fw with components :=
    fw.components ++ [("router-link", Primitive.routerLink),
                      ("router-view", Primitive.routerView self)] }) w

/-- Method `initEvent`: one more `popstate` listener on `window`. -/
def initEvent (self : RouterId) (w : World) : World :=
  { w with listeners := w.listeners ++ [self] }

/-- Method `init`: `createRouteMap`, `initComponents(_Vue)`, `initEvent`, in that
order; `initComponents` throws when `_Vue` is undefined. -/
def init (self : RouterId) (w : World) : Outcome :=
  match w.routers[self]? with
  | none => Outcome.throw Error.typeError w
  | some _ =>
    let w1 := updateRouter self createRouteMap w
    match w1._Vue with
    | none => Outcome.throw Error.typeError w1
    | some Vue => Outcome.ok (initEvent self (initComponents Vue self w1))

/-- The options of a component instance under creation; only `router` is read. -/
structure InstanceOptions where
  router : Option RouterId
  deriving DecidableEq, Repr

/-- The `beforeCreate` hook of the mixin: when `this.$options.router` is set, it is
stored in `_Vue.prototype.$router` and its `init` is called. -/
def beforeCreate (opts : InstanceOptions) (w : World) : Outcome :=
  match opts.router with
  | none => Outcome.ok w
  | some r =>
    match w._Vue with
    | none => Outcome.throw Error.typeError w
    | some Vue => init r (updateFramework Vue (fun fw => { fw with router := some r }) w)

/-- Run the hook `n` times in a row; an exception thrown by a hook is reported by
the framework and does not undo the writes the hook made before it. -/
def runHooks (opts : InstanceOptions) : Nat → World → World
  | 0, w => w
  | n + 1, w => runHooks opts n (beforeCreate opts w).world

/-- Creation of a component instance by constructor `Vue`: the framework calls every
`beforeCreate` hook mixed into that constructor. -/
def createInstance (Vue : VueId) (opts : InstanceOptions) (w : World) : World :=
  runHooks opts (w.frameworks Vue).mixins w

/-- The event object handed to the click handler. -/
structure Event where
  defaultPrevented : Bool
  deriving DecidableEq, Repr

/-- Method `clickHandler(e)` of `router-link`, on an instance of constructor `host`
whose prop `to` is `target`: `history.pushState` with state `{}`, title `''` and url
`this.to`, then `this.$router.data.current = this.to`, then `e.preventDefault()`.
When the browser refuses the url, `pushState` throws: nothing is pushed and the two
statements after it do not run.  `this.$router` is read from the prototype of `host`,
and the member access throws when it is unset. -/
def clickHandler (host : VueId) (target : String) (e : Event) (w : World) : Outcome × Event :=
  if w.accepts target then
    let w1 := { w with history := w.history ++ [{ title := "", url := target }] }
    match (w1.frameworks host).router with
    | none => (Outcome.throw Error.typeError w1, e)
    | some r =>
      match w1.routers[r]? with
      | none => (Outcome.throw Error.typeError w1, e)
      | some _ =>
        (Outcome.ok (updateRouter r (fun x => { x with current := target }) w1),
         { e with defaultPrevented := true })
  else (Outcome.throw Error.securityError w, e)

/-- The constant `component` of the render function of `router-view`:
`self.routeMap[self.data.current]`, which is then handed to `h`. -/
def Router.view (r : Router) : Value := r.routeMap.get r.current

/-- The definition a component name resolves to: its latest registration. -/
def resolve (name : String) (fw : Framework) : Option Primitive :=
  (fw.components.reverse.find? (fun d => d.1 = name)).map Prod.snd

/-- What `router-view` of constructor `host` hands to `h` on a render pass. -/
def renderView (host : VueId) (w : World) : Option Value :=
  match resolve "router-view" (w.frameworks host) with
  | some (Primitive.routerView self) => (w.routers[self]?).map Router.view
  | _ => none

/-- The browser fires `popstate` while `window.location.pathname` is `pathname`:
every listener runs `this.data.current = window.location.pathname`. -/
def popstate (pathname : String) (w : World) : World :=
  w.listeners.foldl
    (fun acc r => updateRouter r (fun x => { x with current := pathname }) acc) w

/-- The two events of the page after initialization. -/
inductive Action where
  | click (host : VueId) (target : String)
  | popstate (pathname : String)
  deriving DecidableEq, Repr

/-- One event handled to completion. -/
def step (w : World) : Action → World
  | Action.click host target => (clickHandler host target { defaultPrevented := false } w).1.world
  | Action.popstate pathname => popstate pathname w

/-- A sequence of events, handled one after the other. -/
def run (w : World) (actions : List Action) : World := actions.foldl step w

/-- The verdict of the page used in the examples: a url that begins with `//` names
another host or none, and a url with a `:` may name another scheme or port; both
are refused, and the paths and relative names of the examples are accepted. -/
def pageAccepts (url : String) : Bool :=
  url.toList.take 2 != ['/', '/'] && !url.toList.contains ':'

/-- The state when the module has just been loaded: `_Vue` undefined, flag unset,
nothing registered, no router, and nothing pushed by this page yet. -/
def World.initial : World :=
  { _Vue := none, installed := false,
    frameworks := fun _ => { mixins := 0, components := [], router := none },
    routers := [], history := [], listeners := [], accepts := pageAccepts }

/-- The page of the example: `Vue.use(VueRouter)`, `new VueRouter(options)` and
`new Vue(router)`, all on constructor `Vue`. -/
def boot (Vue : VueId) (options : Options) (w : World) : Option (RouterId × World) :=
  match construct options (install Vue none w) with
  | Except.error _ => none
  | Except.ok (r, w1) => some (r, createInstance Vue { router := some r } w1)

/-- The calls `Vue.use(VueRouter)` and `new VueRouter(options)` on constructor `Vue`:
the world they leave (the world after `install` if the constructor threw). -/
def setup (Vue : VueId) (options : Options) (w : World) : World :=
  match construct options (install Vue none w) with
  | Except.error _ => install Vue none w
  | Except.ok (_, w1) => w1

/-- A page after initialization: an instance carrying router `r` was created on the
world `w`, so its `beforeCreate` hook ran, and the events `actions` were handled
since. -/
def initialized (r : RouterId) (w : World) (actions : List Action) : World :=
  run (beforeCreate { router := some r } w).world actions

/-! ## Auxiliary definitions for the statements -/

/-- The table `createRouteMap` builds on top of an existing object. -/
def build (o : JSObject) (routes : List Route) : JSObject :=
  routes.foldl (fun m route => m.set route.path route.component) o

/-- No own property is named `__proto__`: the assignment never creates one. -/
def ProtoFree (o : JSObject) : Prop := "__proto__" ∉ o.keys

/-- The write `data.current = p` on a router. -/
def setCurrent (p : String) (x : Router) : Router := { x with current := p }

/-- The part of a router that only `createRouteMap` and the constructor write. -/
def Router.config (x : Router) : Options × JSObject := (x.options, x.routeMap)

/-- The listeners of a list run one after the other on the routers. -/
def notify (p : String) (ls : List RouterId) (rs : List Router) : List Router :=
  ls.foldl (fun acc r => modifyAt (setCurrent p) r acc) rs

/-- Several component instances created one after the other by constructor `Vue`. -/
def createInstances (Vue : VueId) (w : World) (insts : List InstanceOptions) : World :=
  insts.foldl (fun acc opts => createInstance Vue opts acc) w

/-- The routers carried by a sequence of instance options, in order. -/
def carried (insts : List InstanceOptions) : List RouterId :=
  insts.filterMap InstanceOptions.router

/-- The two registrations one run of `initComponents` makes for router `self`. -/
def registrations (self : RouterId) : List (String × Primitive) :=
  [("router-link", Primitive.routerLink), ("router-view", Primitive.routerView self)]

/-- The world `boot` leaves when the plugin was not installed before: written out
field by field. -/
def booted (Vue : VueId) (options : Options) (w : World) : World :=
  { _Vue := some Vue, installed := true,
    frameworks := Function.update w.frameworks Vue
      { mixins := (w.frameworks Vue).mixins + 1,
        components := (w.frameworks Vue).components ++ registrations w.routers.length,
        router := some w.routers.length },
    routers := w.routers ++ [createRouteMap (Router.fresh options)],
    history := w.history,
    listeners := w.listeners ++ [w.routers.length],
    accepts := w.accepts }

/-! ## The route table as an object -/

theorem keys_replace (k : String) (c : Component) (l : List (String × Component)) :
    (JSObject.replace k c l).map Prod.fst = l.map Prod.fst := by
  induction l with
  | nil => rfl
  | cons a l ih =>
    obtain ⟨k1, c1⟩ := a
    simp only [JSObject.replace]
    split <;> simp [ih]

theorem lookup_cons_self (p : String) (c : Component) (l : List (String × Component)) :
    List.lookup p ((p, c) :: l) = some c := by
  simp [List.lookup]

theorem lookup_cons_ne (p k : String) (c : Component) (l : List (String × Component))
    (h : p ≠ k) : List.lookup p ((k, c) :: l) = List.lookup p l := by
  have hb : (p == k) = false := by simpa using h
  simp [List.lookup, hb]

theorem lookup_replace (k p : String) (c : Component) (l : List (String × Component))
    (hk : k ∈ l.map Prod.fst) :
    (JSObject.replace k c l).lookup p = if p = k then some c else l.lookup p := by
  induction l with
  | nil => simp at hk
  | cons a l ih =>
    obtain ⟨k1, c1⟩ := a
    simp only [JSObject.replace]
    by_cases h1 : k1 = k
    · subst h1
      by_cases hp : p = k1
      · subst hp
        simp [lookup_cons_self]
      · simp only [if_true, hp, if_false]
        rw [lookup_cons_ne p k1 c l hp, lookup_cons_ne p k1 c1 l hp]
    · have hk2 : k ∈ l.map Prod.fst := by
        simp only [List.map_cons, List.mem_cons] at hk
        rcases hk with h | h
        · exact absurd h.symm h1
        · exact h
      simp only [h1, if_false]
      by_cases hp : p = k1
      · subst hp
        have hpk : ¬ p = k := h1
        simp [lookup_cons_self, hpk]
      · rw [lookup_cons_ne p k1 c1 _ hp, lookup_cons_ne p k1 c1 l hp, ih hk2]

theorem lookup_eq_none_of_not_mem (p : String) (l : List (String × Component))
    (h : p ∉ l.map Prod.fst) : l.lookup p = none := by
  induction l with
  | nil => rfl
  | cons a l ih =>
    obtain ⟨k1, c1⟩ := a
    simp only [List.map_cons, List.mem_cons, not_or] at h
    rw [lookup_cons_ne p k1 c1 l h.1, ih h.2]

theorem lookup_isSome_of_mem (p : String) (l : List (String × Component))
    (h : p ∈ l.map Prod.fst) : ∃ c, l.lookup p = some c := by
  induction l with
  | nil => simp at h
  | cons a l ih =>
    obtain ⟨k1, c1⟩ := a
    by_cases hp : p = k1
    · subst hp
      exact ⟨c1, lookup_cons_self p c1 l⟩
    · simp only [List.map_cons, List.mem_cons] at h
      rcases h with h | h
      · exact absurd h hp
      · obtain ⟨c, hc⟩ := ih h
        exact ⟨c, by rw [lookup_cons_ne p k1 c1 l hp, hc]⟩

theorem lookup_append_single (k p : String) (c : Component) (l : List (String × Component))
    (hk : k ∉ l.map Prod.fst) :
    (l ++ [(k, c)]).lookup p = if p = k then some c else l.lookup p := by
  induction l with
  | nil =>
    by_cases hp : p = k
    · subst hp
      simp [lookup_cons_self]
    · simp only [List.nil_append, hp, if_false]
      rw [lookup_cons_ne p k c [] hp]
  | cons a l ih =>
    obtain ⟨k1, c1⟩ := a
    simp only [List.map_cons, List.mem_cons, not_or] at hk
    by_cases hp : p = k1
    · subst hp
      have hpk : ¬ p = k := fun h => hk.1 h.symm
      simp [lookup_cons_self, hpk]
    · simp only [List.cons_append]
      rw [lookup_cons_ne p k1 c1 _ hp, lookup_cons_ne p k1 c1 l hp, ih hk.2]

theorem protoFree_empty : ProtoFree JSObject.empty := by
  simp [ProtoFree, JSObject.empty, JSObject.keys]

theorem set_of_mem (o : JSObject) (k : String) (c : Component) (h : k ∈ o.keys) :
    o.set k c = { own := JSObject.replace k c o.own, proto := o.proto } := by
  unfold JSObject.set
  rw [if_pos h]

theorem set_of_proto (o : JSObject) (k : String) (c : Component) (h1 : k ∉ o.keys)
    (h2 : k = "__proto__") : o.set k c = { own := o.own, proto := Proto.component c } := by
  unfold JSObject.set
  rw [if_neg h1, if_pos h2]

theorem set_of_new (o : JSObject) (k : String) (c : Component) (h1 : k ∉ o.keys)
    (h2 : k ≠ "__proto__") : o.set k c = { own := o.own ++ [(k, c)], proto := o.proto } := by
  unfold JSObject.set
  rw [if_neg h1, if_neg h2]

theorem keys_set (o : JSObject) (k : String) (c : Component) :
    (o.set k c).keys =
      if k ∈ o.keys then o.keys else if k = "__proto__" then o.keys else o.keys ++ [k] := by
  by_cases h1 : k ∈ o.keys
  · rw [set_of_mem o k c h1, if_pos h1]
    exact keys_replace k c o.own
  · by_cases h2 : k = "__proto__"
    · rw [set_of_proto o k c h1 h2, if_neg h1, if_pos h2]
      rfl
    · rw [set_of_new o k c h1 h2, if_neg h1, if_neg h2]
      simp [JSObject.keys]

theorem protoFree_set (o : JSObject) (k : String) (c : Component) (h : ProtoFree o) :
    ProtoFree (o.set k c) := by
  unfold ProtoFree at *
  rw [keys_set]
  by_cases h1 : k ∈ o.keys
  · rw [if_pos h1]
    exact h
  · by_cases h2 : k = "__proto__"
    · rw [if_neg h1, if_pos h2]
      exact h
    · rw [if_neg h1, if_neg h2]
      simp only [List.mem_append, List.mem_singleton, not_or]
      exact ⟨h, fun e => h2 e.symm⟩

theorem lookup_set (o : JSObject) (k p : String) (c : Component) (h : ProtoFree o) :
    (o.set k c).own.lookup p =
      if k = "__proto__" then o.own.lookup p
      else if p = k then some c else o.own.lookup p := by
  by_cases h1 : k ∈ o.keys
  · have h2 : k ≠ "__proto__" := fun e => h (e ▸ h1)
    rw [set_of_mem o k c h1, if_neg h2]
    exact lookup_replace k p c o.own h1
  · by_cases h2 : k = "__proto__"
    · rw [set_of_proto o k c h1 h2, if_pos h2]
    · rw [set_of_new o k c h1 h2, if_neg h2]
      exact lookup_append_single k p c o.own h1

theorem proto_set (o : JSObject) (k : String) (c : Component) (h : ProtoFree o) :
    (o.set k c).proto = if k = "__proto__" then Proto.component c else o.proto := by
  by_cases h1 : k ∈ o.keys
  · have h2 : k ≠ "__proto__" := fun e => h (e ▸ h1)
    rw [set_of_mem o k c h1, if_neg h2]
  · by_cases h2 : k = "__proto__"
    · rw [set_of_proto o k c h1 h2, if_pos h2]
    · rw [set_of_new o k c h1 h2, if_neg h2]

theorem lastComponent_nil (p : String) : lastComponent [] p = none := rfl

theorem lastComponent_cons (r : Route) (rs : List Route) (p : String) :
    lastComponent (r :: rs) p =
      match lastComponent rs p with
      | some c => some c
      | none => if r.path = p then some r.component else none := by
  unfold lastComponent
  rw [List.reverse_cons, List.find?_append]
  cases h : rs.reverse.find? (fun route => decide (route.path = p)) with
  | some x => simp
  | none =>
    by_cases hp : r.path = p
    · simp [hp]
    · simp [hp]

theorem lastComponent_isSome (rs : List Route) (p : String) (h : p ∈ paths rs) :
    ∃ c, lastComponent rs p = some c := by
  induction rs with
  | nil => simp [paths] at h
  | cons r rs ih =>
    rw [lastComponent_cons]
    cases hl : lastComponent rs p with
    | some c => exact ⟨c, rfl⟩
    | none =>
      simp only [paths, List.map_cons, List.mem_cons] at h
      rcases h with h | h
      · exact ⟨r.component, by simp [h]⟩
      · obtain ⟨c, hc⟩ := ih h
        rw [hl] at hc
        exact absurd hc (by simp)

theorem lastComponent_eq_none (rs : List Route) (p : String) (h : p ∉ paths rs) :
    lastComponent rs p = none := by
  induction rs with
  | nil => rfl
  | cons r rs ih =>
    simp only [paths, List.map_cons, List.mem_cons, not_or] at h
    rw [lastComponent_cons, ih h.2]
    have : ¬ r.path = p := fun e => h.1 e.symm
    simp [this]

theorem build_cons (o : JSObject) (r : Route) (rs : List Route) :
    build o (r :: rs) = build (o.set r.path r.component) rs := rfl

theorem protoFree_build (rs : List Route) (o : JSObject) (h : ProtoFree o) :
    ProtoFree (build o rs) := by
  induction rs generalizing o with
  | nil => exact h
  | cons r rs ih => exact ih _ (protoFree_set o r.path r.component h)

/-- Own properties of the built table: outside `__proto__`, the last entry of the
list wins, and a name the list does not carry keeps what the object had. -/
theorem lookup_build (rs : List Route) (o : JSObject) (p : String) (h : ProtoFree o)
    (hp : p ≠ "__proto__") :
    (build o rs).own.lookup p =
      match lastComponent rs p with
      | some c => some c
      | none => o.own.lookup p := by
  induction rs generalizing o with
  | nil => rfl
  | cons r rs ih =>
    rw [build_cons, ih _ (protoFree_set o r.path r.component h), lastComponent_cons]
    cases hl : lastComponent rs p with
    | some c => rfl
    | none =>
      simp only
      rw [lookup_set o r.path p r.component h]
      by_cases h1 : r.path = "__proto__"
      · have h3 : ¬ r.path = p := fun e => hp (e ▸ h1)
        rw [if_pos h1, if_neg h3]
      · by_cases h2 : p = r.path
        · rw [if_neg h1, if_pos h2, if_pos h2.symm]
        · have h3 : ¬ r.path = p := fun e => h2 e.symm
          rw [if_neg h1, if_neg h2, if_neg h3]

/-- Prototype of the built table: the component of the last `__proto__` entry, or
the prototype the object had. -/
theorem proto_build (rs : List Route) (o : JSObject) (h : ProtoFree o) :
    (build o rs).proto =
      match lastComponent rs "__proto__" with
      | some c => Proto.component c
      | none => o.proto := by
  induction rs generalizing o with
  | nil => rfl
  | cons r rs ih =>
    rw [build_cons, ih _ (protoFree_set o r.path r.component h), lastComponent_cons]
    cases hl : lastComponent rs "__proto__" with
    | some c => rfl
    | none =>
      simp only
      rw [proto_set o r.path r.component h]
      by_cases h1 : r.path = "__proto__"
      · rw [if_pos h1, if_pos h1]
      · rw [if_neg h1, if_neg h1]

theorem mem_keys_set (o : JSObject) (k p : String) (c : Component) :
    p ∈ (o.set k c).keys ↔ p ∈ o.keys ∨ (p = k ∧ p ≠ "__proto__") := by
  rw [keys_set]
  by_cases h1 : k ∈ o.keys
  · rw [if_pos h1]
    constructor
    · exact fun h => Or.inl h
    · rintro (h | ⟨h, _⟩)
      · exact h
      · exact h ▸ h1
  · by_cases h2 : k = "__proto__"
    · rw [if_neg h1, if_pos h2]
      constructor
      · exact fun h => Or.inl h
      · rintro (h | ⟨h, h3⟩)
        · exact h
        · exact absurd (h.trans h2) h3
    · rw [if_neg h1, if_neg h2]
      simp only [List.mem_append, List.mem_singleton]
      constructor
      · rintro (h | h)
        · exact Or.inl h
        · exact Or.inr ⟨h, fun e => h2 (h ▸ e)⟩
      · rintro (h | ⟨h, _⟩)
        · exact Or.inl h
        · exact Or.inr h

theorem mem_keys_build (rs : List Route) (o : JSObject) (k : String) :
    k ∈ (build o rs).keys ↔ k ∈ o.keys ∨ (k ∈ paths rs ∧ k ≠ "__proto__") := by
  induction rs generalizing o with
  | nil => simp [build, paths]
  | cons r rs ih =>
    rw [build_cons, ih, mem_keys_set]
    simp only [paths, List.map_cons, List.mem_cons]
    constructor
    · rintro ((h | ⟨h, h3⟩) | ⟨h, h3⟩)
      · exact Or.inl h
      · exact Or.inr ⟨Or.inl h, h3⟩
      · exact Or.inr ⟨Or.inr h, h3⟩
    · rintro (h | ⟨h | h, h3⟩)
      · exact Or.inl (Or.inl h)
      · exact Or.inl (Or.inr ⟨h, h3⟩)
      · exact Or.inr ⟨h, h3⟩

theorem nodup_keys_set (o : JSObject) (k : String) (c : Component) (h : o.keys.Nodup) :
    (o.set k c).keys.Nodup := by
  rw [keys_set]
  by_cases h1 : k ∈ o.keys
  · simpa [h1] using h
  · by_cases h2 : k = "__proto__"
    · simpa [h1, h2] using h
    · simp only [h1, h2, if_false]
      exact List.Nodup.append h (List.nodup_singleton k) (by simpa using h1)

theorem nodup_keys_build (rs : List Route) (o : JSObject) (h : o.keys.Nodup) :
    (build o rs).keys.Nodup := by
  induction rs generalizing o with
  | nil => exact h
  | cons r rs ih => exact ih _ (nodup_keys_set o r.path r.component h)

theorem createRouteMap_routeMap (r : Router) :
    (createRouteMap r).routeMap = build r.routeMap r.options.routes := rfl

/-- The read `table[p]` on the table built over `{}` for a path carried by the list. -/
theorem get_build_of_mem (rs : List Route) (o : JSObject) (p : String) (h : ProtoFree o)
    (hp : p ∈ paths rs) :
    ∃ c, lastComponent rs p = some c ∧ (build o rs).get p = Value.component c := by
  obtain ⟨c, hc⟩ := lastComponent_isSome rs p hp
  refine ⟨c, hc, ?_⟩
  by_cases hpp : p = "__proto__"
  · subst hpp
    have hown : (build o rs).own.lookup "__proto__" = none :=
      lookup_eq_none_of_not_mem _ _ (protoFree_build rs o h)
    have hproto := proto_build rs o h
    rw [hc] at hproto
    simp [JSObject.get, hown, hproto]
  · have hown := lookup_build rs o p h hpp
    rw [hc] at hown
    simp [JSObject.get, hown]

/-! ## Writes through router references -/

theorem length_modifyAt (f : Router → Router) (i : Nat) (l : List Router) :
    (modifyAt f i l).length = l.length := by
  induction l generalizing i with
  | nil => cases i <;> rfl
  | cons a l ih =>
    cases i with
    | zero => rfl
    | succ i => simp [modifyAt, ih]

theorem getElem?_modifyAt (f : Router → Router) (i j : Nat) (l : List Router) :
    (modifyAt f i l)[j]? = if j = i then (l[j]?).map f else l[j]? := by
  induction l generalizing i j with
  | nil => cases i <;> simp [modifyAt]
  | cons a l ih =>
    cases i with
    | zero =>
      cases j with
      | zero => simp [modifyAt]
      | succ j => simp [modifyAt]
    | succ i =>
      cases j with
      | zero => simp [modifyAt]
      | succ j => simp [modifyAt, ih]

theorem map_modifyAt {β : Type} (g : Router → β) (f : Router → Router)
    (hg : ∀ x, g (f x) = g x) (i : Nat) (l : List Router) :
    (modifyAt f i l).map g = l.map g := by
  induction l generalizing i with
  | nil => cases i <;> rfl
  | cons a l ih =>
    cases i with
    | zero => simp [modifyAt, hg]
    | succ i => simp [modifyAt, ih]

theorem modifyAt_length_append (f : Router → Router) (l : List Router) (x : Router) :
    modifyAt f l.length (l ++ [x]) = l ++ [f x] := by
  induction l with
  | nil => rfl
  | cons a l ih => simp [modifyAt, ih]

theorem config_setCurrent (p : String) (x : Router) :
    (setCurrent p x).config = x.config := rfl

/-! ## The click handler and the popstate listener -/

theorem clickHandler_refused (host : VueId) (target : String) (e : Event) (w : World)
    (ha : w.accepts target = false) :
    clickHandler host target e w = (Outcome.throw Error.securityError w, e) := by
  simp [clickHandler, ha]

theorem clickHandler_eq (host : VueId) (target : String) (e : Event) (w : World)
    (r : RouterId) (ha : w.accepts target = true)
    (hr : (w.frameworks host).router = some r) (hlen : r < w.routers.length) :
    clickHandler host target e w =
      (Outcome.ok (updateRouter r (setCurrent target)
          { w with history := w.history ++ [{ title := "", url := target }] }),
       { defaultPrevented := true }) := by
  have hget : w.routers[r]? = some (w.routers[r]) := List.getElem?_eq_getElem hlen
  simp only [clickHandler, ha, if_true, hr, hget]
  rfl

theorem clickHandler_no_router (host : VueId) (target : String) (e : Event) (w : World)
    (ha : w.accepts target = true) (hr : (w.frameworks host).router = none) :
    clickHandler host target e w =
      (Outcome.throw Error.typeError
        { w with history := w.history ++ [{ title := "", url := target }] }, e) := by
  simp only [clickHandler, ha, if_true, hr]

theorem clickHandler_dangling (host : VueId) (target : String) (e : Event) (w : World)
    (r : RouterId) (ha : w.accepts target = true)
    (hr : (w.frameworks host).router = some r) (hget : w.routers[r]? = none) :
    clickHandler host target e w =
      (Outcome.throw Error.typeError
        { w with history := w.history ++ [{ title := "", url := target }] }, e) := by
  simp only [clickHandler, ha, if_true, hr, hget]

theorem clickHandler_world_frame (host : VueId) (target : String) (e : Event) (w : World) :
    (clickHandler host target e w).1.world._Vue = w._Vue ∧
    (clickHandler host target e w).1.world.installed = w.installed ∧
    (clickHandler host target e w).1.world.frameworks = w.frameworks ∧
    (clickHandler host target e w).1.world.listeners = w.listeners ∧
    (clickHandler host target e w).1.world.routers.map Router.config
      = w.routers.map Router.config ∧
    (clickHandler host target e w).1.world.accepts = w.accepts := by
  cases ha : w.accepts target with
  | false =>
    rw [clickHandler_refused host target e w ha]
    exact ⟨rfl, rfl, rfl, rfl, rfl, rfl⟩
  | true =>
    cases hr : (w.frameworks host).router with
    | none =>
      rw [clickHandler_no_router host target e w ha hr]
      exact ⟨rfl, rfl, rfl, rfl, rfl, rfl⟩
    | some r =>
      by_cases hlen : r < w.routers.length
      · rw [clickHandler_eq host target e w r ha hr hlen]
        refine ⟨rfl, rfl, rfl, rfl, ?_, rfl⟩
        exact map_modifyAt Router.config _ (config_setCurrent target) r w.routers
      · have hget : w.routers[r]? = none := List.getElem?_eq_none (Nat.le_of_not_lt hlen)
        rw [clickHandler_dangling host target e w r ha hr hget]
        exact ⟨rfl, rfl, rfl, rfl, rfl, rfl⟩

theorem popstate_fold (p : String) (ls : List RouterId) (w : World) :
    ls.foldl (fun acc r => updateRouter r (fun x => { x with current := p }) acc) w =
      { w with routers := notify p ls w.routers } := by
  induction ls generalizing w with
  | nil => rfl
  | cons r ls ih =>
    simp only [List.foldl_cons, ih, notify]
    rfl

theorem popstate_eq (p : String) (w : World) :
    popstate p w = { w with routers := notify p w.listeners w.routers } :=
  popstate_fold p w.listeners w

theorem getElem?_notify (p : String) (ls : List RouterId) (rs : List Router) (j : Nat) :
    (notify p ls rs)[j]? = if j ∈ ls then (rs[j]?).map (setCurrent p) else rs[j]? := by
  induction ls generalizing rs with
  | nil => simp [notify]
  | cons r ls ih =>
    have hstep : notify p (r :: ls) rs = notify p ls (modifyAt (setCurrent p) r rs) := rfl
    rw [hstep, ih, getElem?_modifyAt]
    by_cases h1 : j ∈ ls
    · have h2 : j ∈ r :: ls := List.mem_cons_of_mem r h1
      rw [if_pos h1, if_pos h2]
      by_cases h3 : j = r
      · rw [if_pos h3]
        cases rs[j]? <;> rfl
      · rw [if_neg h3]
    · rw [if_neg h1]
      by_cases h3 : j = r
      · have h2 : j ∈ r :: ls := h3 ▸ List.mem_cons_self r ls
        rw [if_pos h3, if_pos h2]
      · have h2 : j ∉ r :: ls := by
          simp only [List.mem_cons, not_or]
          exact ⟨h3, h1⟩
        rw [if_neg h3, if_neg h2]

theorem map_config_notify (p : String) (ls : List RouterId) (rs : List Router) :
    (notify p ls rs).map Router.config = rs.map Router.config := by
  induction ls generalizing rs with
  | nil => rfl
  | cons r ls ih =>
    have hstep : notify p (r :: ls) rs = notify p ls (modifyAt (setCurrent p) r rs) := rfl
    rw [hstep, ih]
    exact map_modifyAt Router.config _ (config_setCurrent p) r rs

/-! ## Instance creation -/

/-- The world one successful run of the `beforeCreate` hook leaves for router `r`. -/
theorem beforeCreate_eq (Vue : VueId) (r : RouterId) (w : World) (hv : w._Vue = some Vue)
    (hlen : r < w.routers.length) :
    beforeCreate { router := some r } w =
      Outcome.ok
        { _Vue := some Vue, installed := w.installed,
          frameworks := Function.update w.frameworks Vue
            { mixins := (w.frameworks Vue).mixins,
              components := (w.frameworks Vue).components ++ registrations r,
              router := some r },
          routers := modifyAt createRouteMap r w.routers,
          history := w.history,
          listeners := w.listeners ++ [r],
          accepts := w.accepts } := by
  have hget : w.routers[r]? = some (w.routers[r]) := List.getElem?_eq_getElem hlen
  simp only [beforeCreate, hv, init, updateFramework, updateRouter, hget, initEvent,
    initComponents, registrations, Function.update_same, Function.update_idem]

theorem beforeCreate_none (w : World) : beforeCreate { router := none } w = Outcome.ok w := rfl

theorem createInstance_one (Vue : VueId) (opts : InstanceOptions) (w : World)
    (hm : (w.frameworks Vue).mixins = 1) :
    createInstance Vue opts w = (beforeCreate opts w).world := by
  simp only [createInstance, hm, runHooks]

theorem createInstance_zero (Vue : VueId) (opts : InstanceOptions) (w : World)
    (hm : (w.frameworks Vue).mixins = 0) : createInstance Vue opts w = w := by
  simp only [createInstance, hm, runHooks]

theorem boot_eq (Vue : VueId) (options : Options) (w : World) (h1 : w.installed = false)
    (h2 : (w.frameworks Vue).mixins = 0) :
    boot Vue options w = some (w.routers.length, booted Vue options w) := by
  have hinst : install Vue none w =
      { _Vue := some Vue, installed := true,
        frameworks := Function.update w.frameworks Vue
          { mixins := 1, components := (w.frameworks Vue).components,
            router := (w.frameworks Vue).router },
        routers := w.routers, history := w.history, listeners := w.listeners,
        accepts := w.accepts } := by
    simp [install, h1, updateFramework, h2]
  have hcons : construct options (install Vue none w) =
      Except.ok (w.routers.length,
        { _Vue := some Vue, installed := true,
          frameworks := Function.update w.frameworks Vue
            { mixins := 1, components := (w.frameworks Vue).components,
              router := (w.frameworks Vue).router },
          routers := w.routers ++ [Router.fresh options],
          history := w.history, listeners := w.listeners, accepts := w.accepts }) := by
    rw [hinst]
    rfl
  unfold boot
  rw [hcons]
  simp only
  rw [createInstance_one Vue _ _ (by simp), beforeCreate_eq Vue w.routers.length _ rfl (by simp)]
  simp only [Outcome.world, booted, Function.update_same, Function.update_idem, h2,
    modifyAt_length_append]

theorem resolve_view_append (m : Nat) (x : Option RouterId) (cs : List (String × Primitive))
    (r : RouterId) :
    resolve "router-view" { mixins := m, components := cs ++ registrations r, router := x }
      = some (Primitive.routerView r) := by
  simp [resolve, registrations]

theorem renderView_booted (Vue : VueId) (options : Options) (w : World) :
    renderView Vue (booted Vue options w)
      = some ((build JSObject.empty options.routes).get "/") := by
  simp only [renderView, booted, Function.update_same, resolve_view_append]
  simp [Router.view, createRouteMap, Router.fresh, build]

theorem clickHandler_booted (Vue : VueId) (options : Options) (w : World) (target : String)
    (e : Event) (ha : w.accepts target = true) :
    clickHandler Vue target e (booted Vue options w) =
      (Outcome.ok { booted Vue options w with
          routers := w.routers ++ [setCurrent target (createRouteMap (Router.fresh options))],
          history := w.history ++ [{ title := "", url := target }] },
       { defaultPrevented := true }) := by
  rw [clickHandler_eq Vue target e (booted Vue options w) w.routers.length
    ha (by simp [booted]) (by simp [booted])]
  simp only [updateRouter, booted, modifyAt_length_append]

theorem renderView_clicked (Vue : VueId) (options : Options) (w : World) (target : String)
    (e : Event) (ha : w.accepts target = true) :
    renderView Vue (clickHandler Vue target e (booted Vue options w)).1.world
      = some ((build JSObject.empty options.routes).get target) := by
  rw [clickHandler_booted Vue options w target e ha]
  simp only [Outcome.world, renderView, booted, Function.update_same, resolve_view_append]
  simp [Router.view, createRouteMap, Router.fresh, build, setCurrent]

theorem popstate_booted (Vue : VueId) (options : Options) (w : World) (p : String) :
    (popstate p (booted Vue options w)).routers[w.routers.length]?
      = some (setCurrent p (createRouteMap (Router.fresh options))) := by
  rw [popstate_eq]
  simp only [getElem?_notify, booted]
  simp

theorem renderView_popstate (Vue : VueId) (options : Options) (w : World) (p : String) :
    renderView Vue (popstate p (booted Vue options w))
      = some ((build JSObject.empty options.routes).get p) := by
  have hfw : (popstate p (booted Vue options w)).frameworks = (booted Vue options w).frameworks := by
    rw [popstate_eq]
  simp only [renderView, hfw]
  simp only [booted, Function.update_same, resolve_view_append]
  have := popstate_booted Vue options w p
  simp only [booted] at this
  rw [this]
  simp [Router.view, createRouteMap, Router.fresh, build, setCurrent]

/-- The invariant instance creation keeps once the plugin is installed on `Vue`. -/
theorem createInstance_step (Vue : VueId) (opts : InstanceOptions) (w : World)
    (hv : w._Vue = some Vue) (hm : (w.frameworks Vue).mixins = 1)
    (hr : ∀ r, opts.router = some r → r < w.routers.length) :
    (createInstance Vue opts w)._Vue = some Vue ∧
    ((createInstance Vue opts w).frameworks Vue).mixins = 1 ∧
    (createInstance Vue opts w).routers.length = w.routers.length ∧
    (createInstance Vue opts w).listeners = w.listeners ++ carried [opts] ∧
    ((createInstance Vue opts w).frameworks Vue).components.length
      = (w.frameworks Vue).components.length + 2 * (carried [opts]).length := by
  rw [createInstance_one Vue opts w hm]
  obtain ⟨ro⟩ := opts
  cases ro with
  | none =>
    rw [beforeCreate_none]
    simp [Outcome.world, hv, hm, carried]
  | some r =>
    rw [beforeCreate_eq Vue r w hv (hr r rfl)]
    simp [Outcome.world, hm, carried, registrations, length_modifyAt]

theorem carried_cons (o : InstanceOptions) (insts : List InstanceOptions) :
    carried (o :: insts) = carried [o] ++ carried insts := by
  obtain ⟨ro⟩ := o
  cases ro <;> simp [carried]

theorem createInstances_count (Vue : VueId) (insts : List InstanceOptions) (w : World)
    (hv : w._Vue = some Vue) (hm : (w.frameworks Vue).mixins = 1)
    (hr : ∀ o ∈ insts, ∀ r, o.router = some r → r < w.routers.length) :
    (createInstances Vue w insts).listeners = w.listeners ++ carried insts ∧
    ((createInstances Vue w insts).frameworks Vue).components.length
      = (w.frameworks Vue).components.length + 2 * (carried insts).length := by
  induction insts generalizing w with
  | nil => simp [createInstances, carried]
  | cons o insts ih =>
    obtain ⟨h1, h2, h3, h4, h5⟩ := createInstance_step Vue o w hv hm
      (fun r hro => hr o (List.mem_cons_self o insts) r hro)
    have hstep : createInstances Vue w (o :: insts)
        = createInstances Vue (createInstance Vue o w) insts := rfl
    have hr2 : ∀ o2 ∈ insts, ∀ r, o2.router = some r →
        r < (createInstance Vue o w).routers.length := by
      intro o2 ho2 r hro
      rw [h3]
      exact hr o2 (List.mem_cons_of_mem o ho2) r hro
    obtain ⟨i1, i2⟩ := ih (createInstance Vue o w) h1 h2 hr2
    rw [hstep, i1, i2, h4, h5, carried_cons o insts]
    constructor
    · simp
    · simp only [List.length_append]
      omega

theorem step_frame (w : World) (a : Action) :
    (step w a)._Vue = w._Vue ∧ (step w a).installed = w.installed ∧
    (step w a).frameworks = w.frameworks ∧ (step w a).listeners = w.listeners ∧
    (step w a).routers.map Router.config = w.routers.map Router.config := by
  cases a with
  | click host target =>
    obtain ⟨h1, h2, h3, h4, h5, _⟩ :=
      clickHandler_world_frame host target { defaultPrevented := false } w
    exact ⟨h1, h2, h3, h4, h5⟩
  | popstate pathname =>
    simp only [step]
    rw [popstate_eq]
    exact ⟨rfl, rfl, rfl, rfl, map_config_notify pathname w.listeners w.routers⟩

theorem run_frame (actions : List Action) (w : World) :
    (run w actions)._Vue = w._Vue ∧ (run w actions).installed = w.installed ∧
    (run w actions).frameworks = w.frameworks ∧ (run w actions).listeners = w.listeners ∧
    (run w actions).routers.map Router.config = w.routers.map Router.config := by
  induction actions generalizing w with
  | nil => exact ⟨rfl, rfl, rfl, rfl, rfl⟩
  | cons a actions ih =>
    have hstep : run w (a :: actions) = run (step w a) actions := rfl
    obtain ⟨h1, h2, h3, h4, h5⟩ := step_frame w a
    obtain ⟨i1, i2, i3, i4, i5⟩ := ih (step w a)
    rw [hstep]
    exact ⟨i1.trans h1, i2.trans h2, i3.trans h3, i4.trans h4, i5.trans h5⟩

theorem step_accepts (w : World) (a : Action) : (step w a).accepts = w.accepts := by
  cases a with
  | click host target =>
    exact (clickHandler_world_frame host target { defaultPrevented := false } w).2.2.2.2.2
  | popstate pathname =>
    simp only [step]
    rw [popstate_eq]

theorem run_accepts (actions : List Action) (w : World) :
    (run w actions).accepts = w.accepts := by
  induction actions generalizing w with
  | nil => rfl
  | cons a actions ih =>
    have hstep : run w (a :: actions) = run (step w a) actions := rfl
    rw [hstep, ih, step_accepts]

/-- What the hook establishes for router `r` and every later event keeps: `$router`
is `r`, the listener of `r` is subscribed, `r` is still a router, and the verdict
of the browser is the one of the page. -/
theorem initialized_facts (Vue : VueId) (r : RouterId) (w : World) (actions : List Action)
    (hv : w._Vue = some Vue) (hlen : r < w.routers.length) :
    (beforeCreate { router := some r } w).returned = true ∧
    ((initialized r w actions).frameworks Vue).router = some r ∧
    r ∈ (initialized r w actions).listeners ∧
    r < (initialized r w actions).routers.length ∧
    (initialized r w actions).accepts = w.accepts := by
  obtain ⟨_, _, h3, h4, h5⟩ := run_frame actions (beforeCreate { router := some r } w).world
  have h6 := run_accepts actions (beforeCreate { router := some r } w).world
  have hl := congrArg List.length h5
  simp only [List.length_map] at hl
  unfold initialized
  rw [h3, h4, hl, h6, beforeCreate_eq Vue r w hv hlen]
  simp [Outcome.returned, Outcome.world, length_modifyAt, hlen]

/-- The read of a name that is neither configured nor found on `Object.prototype`,
on a table built from a list without the path `__proto__`. -/
theorem get_build_undefined (rs : List Route) (p : String)
    (hproto : "__proto__" ∉ paths rs) (hp : p ∉ paths rs) (hb : p ∉ objectPrototypeKeys) :
    (build JSObject.empty rs).get p = Value.undefined := by
  simp only [objectPrototypeKeys, List.mem_cons, not_or] at hb
  have hown : (build JSObject.empty rs).own.lookup p = none := by
    rw [lookup_build rs JSObject.empty p protoFree_empty hb.1, lastComponent_eq_none rs p hp]
    rfl
  have hpr : (build JSObject.empty rs).proto = Proto.objectPrototype := by
    rw [proto_build rs JSObject.empty protoFree_empty, lastComponent_eq_none rs _ hproto]
    rfl
  simp only [JSObject.get, hown, hpr, if_neg hb.1, if_neg hb.2]

theorem construct_eq (options : Options) (w : World) (Vue : VueId)
    (hv : w._Vue = some Vue) :
    construct options w =
      Except.ok (w.routers.length, { w with routers := w.routers ++ [Router.fresh options] }) := by
  simp only [construct, hv]

theorem install_fresh (Vue : VueId) (o : Option PluginOptions) (w : World)
    (hi : w.installed = false) :
    (install Vue o w)._Vue = some Vue ∧ (install Vue o w).routers = w.routers := by
  simp [install, hi, updateFramework]

/-! ## The claims -/

/-- C1, as stated, fails: for the route list with the single path `__proto__`, the
path occurs in the list but the table built on a fresh router has no key at all
(the assignment went to the prototype slot). -/
theorem createRouteMap_proto_path_not_key :
    "__proto__" ∈ paths [⟨"__proto__", ⟨7⟩⟩] ∧
    (createRouteMap (Router.fresh ⟨[⟨"__proto__", ⟨7⟩⟩]⟩)).routeMap.keys = [] ∧
    (createRouteMap (Router.fresh ⟨[⟨"__proto__", ⟨7⟩⟩]⟩)).routeMap.proto
      = Proto.component ⟨7⟩ := by
  decide

/-- C1, amended: for every route list without the path `__proto__` (repeated paths
and the empty list included), `createRouteMap` on a fresh router gives a table
whose keys are exactly the paths of the list, each once, every key mapped to the
component of the last entry with that path, and no other name is a key. -/
theorem createRouteMap_table (options : Options)
    (h : "__proto__" ∉ paths options.routes) :
    (∀ k, k ∈ (createRouteMap (Router.fresh options)).routeMap.keys
        ↔ k ∈ paths options.routes) ∧
    (createRouteMap (Router.fresh options)).routeMap.keys.Nodup ∧
    (∀ k, (createRouteMap (Router.fresh options)).routeMap.own.lookup k
        = lastComponent options.routes k) ∧
    (∀ k, k ∈ paths options.routes →
        ∃ c, lastComponent options.routes k = some c ∧
          (createRouteMap (Router.fresh options)).routeMap.get k = Value.component c) ∧
    (∀ k, k ∉ paths options.routes →
        (createRouteMap (Router.fresh options)).routeMap.own.lookup k = none) := by
  have htab : (createRouteMap (Router.fresh options)).routeMap
      = build JSObject.empty options.routes := rfl
  rw [htab]
  have hkeys : ∀ k, k ∈ (build JSObject.empty options.routes).keys
      ↔ k ∈ paths options.routes := by
    intro k
    rw [mem_keys_build]
    constructor
    · rintro (hk | ⟨hk, _⟩)
      · simp [JSObject.empty, JSObject.keys] at hk
      · exact hk
    · intro hk
      exact Or.inr ⟨hk, fun e => h (e ▸ hk)⟩
  have hlook : ∀ k, (build JSObject.empty options.routes).own.lookup k
      = lastComponent options.routes k := by
    intro k
    by_cases hk : k = "__proto__"
    · subst hk
      rw [lastComponent_eq_none _ _ h]
      exact lookup_eq_none_of_not_mem _ _ (protoFree_build _ _ protoFree_empty)
    · rw [lookup_build _ _ k protoFree_empty hk]
      cases lastComponent options.routes k <;> rfl
  refine ⟨hkeys, ?_, hlook, ?_, ?_⟩
  · exact nodup_keys_build _ _ (by simp [JSObject.empty, JSObject.keys])
  · intro k hk
    exact get_build_of_mem _ _ k protoFree_empty hk
  · intro k hk
    rw [hlook, lastComponent_eq_none _ _ hk]

/-- Witness for C1 (amended): a list with a repeated path. -/
theorem createRouteMap_table_witness :
    (∀ k, k ∈ (createRouteMap (Router.fresh
          ⟨[⟨"/", ⟨0⟩⟩, ⟨"/about", ⟨1⟩⟩, ⟨"/", ⟨2⟩⟩]⟩)).routeMap.keys
        ↔ k ∈ paths [⟨"/", ⟨0⟩⟩, ⟨"/about", ⟨1⟩⟩, ⟨"/", ⟨2⟩⟩]) ∧
    (createRouteMap (Router.fresh
        ⟨[⟨"/", ⟨0⟩⟩, ⟨"/about", ⟨1⟩⟩, ⟨"/", ⟨2⟩⟩]⟩)).routeMap.get "/"
      = Value.component ⟨2⟩ :=
  ⟨(createRouteMap_table ⟨[⟨"/", ⟨0⟩⟩, ⟨"/about", ⟨1⟩⟩, ⟨"/", ⟨2⟩⟩]⟩ (by decide)).1,
   by decide⟩

/-- C2, as stated, fails: on the initialized page a link whose target is
`//other.example/x` is activated; the browser refuses the url, `pushState` throws,
no entry is pushed, the navigation state stays `/` and the default action is not
prevented. -/
theorem clickHandler_refused_url :
    (clickHandler 0 "//other.example/x" ⟨false⟩
        (initialized 0 (setup 0 ⟨[⟨"/", ⟨0⟩⟩]⟩ World.initial) [])).1.returned = false ∧
    (clickHandler 0 "//other.example/x" ⟨false⟩
        (initialized 0 (setup 0 ⟨[⟨"/", ⟨0⟩⟩]⟩ World.initial) [])).1.world.history = [] ∧
    ((clickHandler 0 "//other.example/x" ⟨false⟩
        (initialized 0 (setup 0 ⟨[⟨"/", ⟨0⟩⟩]⟩ World.initial) [])).1.world.routers[0]?).map
          Router.current = some "/" ∧
    (clickHandler 0 "//other.example/x" ⟨false⟩
        (initialized 0 (setup 0 ⟨[⟨"/", ⟨0⟩⟩]⟩ World.initial) [])).2.defaultPrevented
      = false := by
  decide

/-- C2, amended: on every initialized page (the hook ran for router `r`, any events
since) and for every target the browser accepts as url of `pushState`, configured
or not, `clickHandler` returns normally, appends exactly one history entry for the
target, sets `data.current` of the router to the target and prevents the default
action of the event. -/
theorem clickHandler_effects (Vue : VueId) (r : RouterId) (w : World)
    (actions : List Action) (target : String) (e : Event) (hv : w._Vue = some Vue)
    (hlen : r < w.routers.length) (ha : w.accepts target = true) :
    (clickHandler Vue target e (initialized r w actions)).1.returned = true ∧
    (clickHandler Vue target e (initialized r w actions)).1.world.history
      = (initialized r w actions).history ++ [{ title := "", url := target }] ∧
    ((clickHandler Vue target e (initialized r w actions)).1.world.routers[r]?).map
        Router.current = some target ∧
    (clickHandler Vue target e (initialized r w actions)).2.defaultPrevented = true := by
  obtain ⟨_, hr, _, hl, hacc⟩ := initialized_facts Vue r w actions hv hlen
  rw [clickHandler_eq Vue target e (initialized r w actions) r (hacc ▸ ha) hr hl]
  refine ⟨rfl, rfl, ?_, rfl⟩
  simp only [Outcome.world, updateRouter, getElem?_modifyAt, if_true,
    List.getElem?_eq_getElem hl]
  rfl

/-- Witness for C2 (amended): a link to a path that is not configured, after the
module was installed, a router built, the root instance created and a `popstate`
handled. -/
theorem clickHandler_effects_witness :
    (clickHandler 0 "/missing" ⟨false⟩
        (initialized 0 (setup 0 ⟨[⟨"/", ⟨0⟩⟩]⟩ World.initial)
          [Action.popstate "/"])).1.returned = true ∧
    (clickHandler 0 "/missing" ⟨false⟩
        (initialized 0 (setup 0 ⟨[⟨"/", ⟨0⟩⟩]⟩ World.initial)
          [Action.popstate "/"])).1.world.history
      = (initialized 0 (setup 0 ⟨[⟨"/", ⟨0⟩⟩]⟩ World.initial) [Action.popstate "/"]).history
          ++ [{ title := "", url := "/missing" }] ∧
    ((clickHandler 0 "/missing" ⟨false⟩
        (initialized 0 (setup 0 ⟨[⟨"/", ⟨0⟩⟩]⟩ World.initial)
          [Action.popstate "/"])).1.world.routers[0]?).map Router.current
      = some "/missing" ∧
    (clickHandler 0 "/missing" ⟨false⟩
        (initialized 0 (setup 0 ⟨[⟨"/", ⟨0⟩⟩]⟩ World.initial)
          [Action.popstate "/"])).2.defaultPrevented = true :=
  clickHandler_effects 0 0 (setup 0 ⟨[⟨"/", ⟨0⟩⟩]⟩ World.initial) [Action.popstate "/"]
    "/missing" ⟨false⟩ (by decide) (by decide) (by decide)

/-- C3: for every world with a router `r`, once the hook has run `init` for `r` (and
whatever events were handled since, link activations with any target included),
firing `popstate` sets `data.current` of `r` to the pathname of the location,
whatever it held before, and leaves the browser history as it was. -/
theorem popstate_sets_current (Vue : VueId) (r : RouterId) (w : World)
    (actions : List Action) (pathname : String) (hv : w._Vue = some Vue)
    (hlen : r < w.routers.length) :
    (beforeCreate { router := some r } w).returned = true ∧
    ((popstate pathname (initialized r w actions)).routers[r]?).map Router.current
      = some pathname ∧
    (popstate pathname (initialized r w actions)).history
      = (initialized r w actions).history := by
  obtain ⟨hret, _, hmem, hl, _⟩ := initialized_facts Vue r w actions hv hlen
  rw [popstate_eq]
  refine ⟨hret, ?_, rfl⟩
  simp only [getElem?_notify, hmem, if_true, List.getElem?_eq_getElem hl]
  rfl

/-- Witness for C3: a `popstate` at `/about` after the page was initialized and a
link to `/elsewhere` was activated. -/
theorem popstate_sets_current_witness :
    (beforeCreate { router := some 0 } (setup 0 ⟨[⟨"/", ⟨0⟩⟩]⟩ World.initial)).returned
      = true ∧
    ((popstate "/about" (initialized 0 (setup 0 ⟨[⟨"/", ⟨0⟩⟩]⟩ World.initial)
        [Action.click 0 "/elsewhere"])).routers[0]?).map Router.current = some "/about" ∧
    (popstate "/about" (initialized 0 (setup 0 ⟨[⟨"/", ⟨0⟩⟩]⟩ World.initial)
        [Action.click 0 "/elsewhere"])).history
      = (initialized 0 (setup 0 ⟨[⟨"/", ⟨0⟩⟩]⟩ World.initial)
          [Action.click 0 "/elsewhere"]).history :=
  popstate_sets_current 0 0 (setup 0 ⟨[⟨"/", ⟨0⟩⟩]⟩ World.initial)
    [Action.click 0 "/elsewhere"] "/about" (by decide) (by decide)

/-- C4, as stated, fails: the route list carries the paths `/` (Home, 0) and
`//other.example/x` (component 1); the link with the second path as target is
activated, the browser refuses the url, `pushState` throws, and the view placeholder
still renders Home, not the component configured for the target; no entry was
pushed. -/
theorem view_keeps_component_when_url_refused :
    "//other.example/x" ∈ paths [⟨"/", ⟨0⟩⟩, ⟨"//other.example/x", ⟨1⟩⟩] ∧
    lastComponent [⟨"/", ⟨0⟩⟩, ⟨"//other.example/x", ⟨1⟩⟩] "//other.example/x"
      = some ⟨1⟩ ∧
    (boot 0 ⟨[⟨"/", ⟨0⟩⟩, ⟨"//other.example/x", ⟨1⟩⟩]⟩ World.initial).map
        (fun x => (clickHandler 0 "//other.example/x" ⟨false⟩ x.2).1.returned)
      = some false ∧
    (boot 0 ⟨[⟨"/", ⟨0⟩⟩, ⟨"//other.example/x", ⟨1⟩⟩]⟩ World.initial).map
        (fun x => renderView 0 (clickHandler 0 "//other.example/x" ⟨false⟩ x.2).1.world)
      = some (some (Value.component ⟨0⟩)) ∧
    (boot 0 ⟨[⟨"/", ⟨0⟩⟩, ⟨"//other.example/x", ⟨1⟩⟩]⟩ World.initial).map
        (fun x => (clickHandler 0 "//other.example/x" ⟨false⟩ x.2).1.world.history)
      = some [] := by
  decide

/-- C4, amended: for every configuration whose route list carries path `P`, on a
page where the plugin is installed, the router built and the root instance created,
the view placeholder renders the component of the last entry for `/` when `/` is
configured, and, when the browser accepts `P` as url of `pushState`, the activation
of a link with target `P` returns and the placeholder then renders the component of
the last entry for `P`, the history having gained the entry for `P`. -/
theorem view_renders_configured (Vue : VueId) (options : Options) (w : World) (P : String)
    (e : Event) (h1 : w.installed = false) (h2 : (w.frameworks Vue).mixins = 0)
    (hP : P ∈ paths options.routes) :
    ∃ r w1 c, boot Vue options w = some (r, w1) ∧
      lastComponent options.routes P = some c ∧
      (∀ c0, lastComponent options.routes "/" = some c0 →
        renderView Vue w1 = some (Value.component c0)) ∧
      ("/" ∈ paths options.routes →
        ∃ c0, lastComponent options.routes "/" = some c0) ∧
      (w.accepts P = true →
        (clickHandler Vue P e w1).1.returned = true ∧
        renderView Vue (clickHandler Vue P e w1).1.world = some (Value.component c) ∧
        (clickHandler Vue P e w1).1.world.history
          = w1.history ++ [{ title := "", url := P }]) := by
  obtain ⟨c, hc, hget⟩ := get_build_of_mem options.routes JSObject.empty P protoFree_empty hP
  refine ⟨w.routers.length, booted Vue options w, c, boot_eq Vue options w h1 h2, hc,
    ?_, ?_, ?_⟩
  · intro c0 hc0
    rw [renderView_booted]
    have hroot : "/" ∈ paths options.routes := by
      by_contra hn
      rw [lastComponent_eq_none _ _ hn] at hc0
      exact absurd hc0 (by simp)
    obtain ⟨c1, hc1, hget1⟩ :=
      get_build_of_mem options.routes JSObject.empty "/" protoFree_empty hroot
    rw [hget1]
    rw [hc1] at hc0
    cases hc0
    rfl
  · intro hroot
    exact lastComponent_isSome _ _ hroot
  · intro ha
    refine ⟨?_, ?_, ?_⟩
    · rw [clickHandler_booted Vue options w P e ha]
      rfl
    · rw [renderView_clicked Vue options w P e ha, hget]
    · rw [clickHandler_booted Vue options w P e ha]
      rfl

/-- Witness for C4 (amended): routes `/` to Home (0) and `/about` to About (1); the
page renders Home, and About after the link to `/about` is activated. -/
theorem view_renders_configured_witness :
    (∃ r w1 c, boot 0 ⟨[⟨"/", ⟨0⟩⟩, ⟨"/about", ⟨1⟩⟩]⟩ World.initial = some (r, w1) ∧
      lastComponent [⟨"/", ⟨0⟩⟩, ⟨"/about", ⟨1⟩⟩] "/about" = some c ∧
      (∀ c0, lastComponent [⟨"/", ⟨0⟩⟩, ⟨"/about", ⟨1⟩⟩] "/" = some c0 →
        renderView 0 w1 = some (Value.component c0)) ∧
      ("/" ∈ paths [⟨"/", ⟨0⟩⟩, ⟨"/about", ⟨1⟩⟩] →
        ∃ c0, lastComponent [⟨"/", ⟨0⟩⟩, ⟨"/about", ⟨1⟩⟩] "/" = some c0) ∧
      (World.initial.accepts "/about" = true →
        (clickHandler 0 "/about" ⟨false⟩ w1).1.returned = true ∧
        renderView 0 (clickHandler 0 "/about" ⟨false⟩ w1).1.world
          = some (Value.component c) ∧
        (clickHandler 0 "/about" ⟨false⟩ w1).1.world.history
          = w1.history ++ [{ title := "", url := "/about" }])) ∧
    World.initial.accepts "/about" = true ∧
    (createRouteMap (Router.fresh ⟨[⟨"/", ⟨0⟩⟩, ⟨"/about", ⟨1⟩⟩]⟩)).routeMap.own
      = [("/", ⟨0⟩), ("/about", ⟨1⟩)] ∧
    (boot 0 ⟨[⟨"/", ⟨0⟩⟩, ⟨"/about", ⟨1⟩⟩]⟩ World.initial).map
        (fun x => renderView 0 x.2) = some (some (Value.component ⟨0⟩)) ∧
    (boot 0 ⟨[⟨"/", ⟨0⟩⟩, ⟨"/about", ⟨1⟩⟩]⟩ World.initial).map
        (fun x => renderView 0 (clickHandler 0 "/about" ⟨false⟩ x.2).1.world)
      = some (some (Value.component ⟨1⟩)) ∧
    (boot 0 ⟨[⟨"/", ⟨0⟩⟩, ⟨"/about", ⟨1⟩⟩]⟩ World.initial).map
        (fun x => (clickHandler 0 "/about" ⟨false⟩ x.2).1.world.history)
      = some [{ title := "", url := "/about" }] :=
  ⟨view_renders_configured 0 ⟨[⟨"/", ⟨0⟩⟩, ⟨"/about", ⟨1⟩⟩]⟩ World.initial "/about" ⟨false⟩
      (by decide) (by decide) (by decide),
   by decide, by decide, by decide, by decide, by decide⟩

/-- C5: `install` is idempotent on every world and for every pair of arguments, also
with another constructor the second time; on a world where the flag was unset, one
call or two leave the flag set, `_Vue` equal to the first constructor and exactly
one more mixin on that constructor, every other constructor untouched.  The method
is total: the second call returns the world unchanged. -/
theorem install_idempotent (w : World) (V1 V2 : VueId) (o1 o2 : Option PluginOptions) :
    install V2 o2 (install V1 o1 w) = install V1 o1 w ∧
    (w.installed = false →
      (install V2 o2 (install V1 o1 w)).installed = true ∧
      (install V2 o2 (install V1 o1 w))._Vue = some V1 ∧
      ((install V2 o2 (install V1 o1 w)).frameworks V1).mixins
        = (w.frameworks V1).mixins + 1 ∧
      (∀ V, V ≠ V1 → (install V2 o2 (install V1 o1 w)).frameworks V = w.frameworks V)) := by
  have hidem : install V2 o2 (install V1 o1 w) = install V1 o1 w := by
    cases hi : w.installed with
    | true => simp [install, hi]
    | false => simp [install, hi, updateFramework]
  refine ⟨hidem, ?_⟩
  intro hi
  rw [hidem]
  refine ⟨?_, ?_, ?_, ?_⟩
  · simp [install, hi, updateFramework]
  · simp [install, hi, updateFramework]
  · simp [install, hi, updateFramework]
  · intro V hV
    simp [install, hi, updateFramework, Function.update_noteq hV]

/-- Witness for C5: two calls with different constructors on the freshly loaded
module. -/
theorem install_idempotent_witness :
    World.initial.installed = false ∧
    (install 1 none (install 0 none World.initial)).installed = true ∧
    (install 1 none (install 0 none World.initial))._Vue = some 0 ∧
    ((install 1 none (install 0 none World.initial)).frameworks 0).mixins
      = (World.initial.frameworks 0).mixins + 1 ∧
    (∀ V, V ≠ 0 →
      (install 1 none (install 0 none World.initial)).frameworks V
        = World.initial.frameworks V) :=
  ⟨rfl, (install_idempotent World.initial 0 1 none none).2 rfl⟩

/-- C6: for every configuration, constructing a router once `install` has recorded
the framework constructor succeeds and yields a router that stores the options as
given, has an empty route table and has `/` as navigation state. -/
theorem construct_fresh (options : Options) (w : World) (Vue : VueId)
    (hv : w._Vue = some Vue) :
    ∃ w1, construct options w = Except.ok (w.routers.length, w1) ∧
      w1.routers[w.routers.length]?
        = some { options := options,
                 routeMap := { own := [], proto := Proto.objectPrototype },
                 current := "/" } ∧
      w1.routers = w.routers ++ [Router.fresh options] := by
  refine ⟨{ w with routers := w.routers ++ [Router.fresh options] }, ?_, ?_, rfl⟩
  · exact construct_eq options w Vue hv
  · simp [Router.fresh, JSObject.empty]

/-- Witness for C6: a list with a repeated path, right after `install`. -/
theorem construct_fresh_witness :
    ∃ w1, construct ⟨[⟨"/", ⟨0⟩⟩, ⟨"/", ⟨1⟩⟩]⟩ (install 0 none World.initial)
        = Except.ok ((install 0 none World.initial).routers.length, w1) ∧
      w1.routers[(install 0 none World.initial).routers.length]?
        = some { options := ⟨[⟨"/", ⟨0⟩⟩, ⟨"/", ⟨1⟩⟩]⟩,
                 routeMap := { own := [], proto := Proto.objectPrototype },
                 current := "/" } ∧
      w1.routers = (install 0 none World.initial).routers
        ++ [Router.fresh ⟨[⟨"/", ⟨0⟩⟩, ⟨"/", ⟨1⟩⟩]⟩] :=
  construct_fresh ⟨[⟨"/", ⟨0⟩⟩, ⟨"/", ⟨1⟩⟩]⟩ (install 0 none World.initial) 0 rfl

/-- C7, as stated, fails: after the root instance a component without the option and
then a second instance carrying the router are created; `init` has run twice, two
`popstate` listeners are subscribed and four registrations were made. -/
theorem init_runs_again_for_second_instance :
    (boot 0 ⟨[⟨"/", ⟨0⟩⟩]⟩ World.initial).map
        (fun x => (createInstances 0 x.2 [⟨none⟩, ⟨some x.1⟩]).listeners) = some [0, 0] ∧
    (boot 0 ⟨[⟨"/", ⟨0⟩⟩]⟩ World.initial).map
        (fun x => ((createInstances 0 x.2 [⟨none⟩, ⟨some x.1⟩]).frameworks 0).components.length)
      = some 4 := by
  decide

/-- C7, amended: once the plugin is installed on `Vue`, for every sequence of
instance creations by `Vue`, `init` runs once per instance that carries a router
option: the listeners gain exactly the carried routers, in order, and two
registrations are made per carrying instance; so exactly one listener and one pair
of registrations when exactly one instance carries the option, and none at all
when no instance carries it. -/
theorem init_once_per_carrying_instance (Vue : VueId) (insts : List InstanceOptions)
    (w : World) (hv : w._Vue = some Vue) (hm : (w.frameworks Vue).mixins = 1)
    (hr : ∀ o ∈ insts, ∀ r, o.router = some r → r < w.routers.length) :
    (createInstances Vue w insts).listeners = w.listeners ++ carried insts ∧
    ((createInstances Vue w insts).frameworks Vue).components.length
      = (w.frameworks Vue).components.length + 2 * (carried insts).length ∧
    ((carried insts).length = 1 →
      (createInstances Vue w insts).listeners.length = w.listeners.length + 1 ∧
      ((createInstances Vue w insts).frameworks Vue).components.length
        = (w.frameworks Vue).components.length + 2) ∧
    ((∀ o ∈ insts, o.router = none) →
      (createInstances Vue w insts).listeners = w.listeners ∧
      ((createInstances Vue w insts).frameworks Vue).components.length
        = (w.frameworks Vue).components.length) := by
  obtain ⟨h1, h2⟩ := createInstances_count Vue insts w hv hm hr
  refine ⟨h1, h2, ?_, ?_⟩
  · intro hone
    rw [h1, h2, hone]
    simp [hone]
  · intro hnone
    have hc : carried insts = [] := by
      simp only [carried, List.filterMap_eq_nil_iff]
      exact hnone
    rw [h1, h2, hc]
    simp

/-- Witness for C7 (amended): on the installed module with one router built, a
component without the option, the root instance with it, and another component
without it. -/
theorem init_once_per_carrying_instance_witness :
    (createInstances 0
        { install 0 none World.initial with routers := [Router.fresh ⟨[⟨"/", ⟨0⟩⟩]⟩] }
        [⟨none⟩, ⟨some 0⟩, ⟨none⟩]).listeners = [0] :=
  (init_once_per_carrying_instance 0 [⟨none⟩, ⟨some 0⟩, ⟨none⟩]
    { install 0 none World.initial with routers := [Router.fresh ⟨[⟨"/", ⟨0⟩⟩]⟩] }
    rfl rfl (by decide)).1

/-- C8: for every world and every sequence of link activations and `popstate`
events, the route table and the stored options of every router are the ones the
world started with, and so are `_Vue`, the flag, the framework constructors and
the listeners: only `data.current` and the history can differ. -/
theorem run_preserves_route_table (w : World) (actions : List Action) :
    (run w actions).routers.map Router.config = w.routers.map Router.config ∧
    (run w actions)._Vue = w._Vue ∧ (run w actions).installed = w.installed ∧
    (run w actions).frameworks = w.frameworks ∧
    (run w actions).listeners = w.listeners := by
  obtain ⟨h1, h2, h3, h4, h5⟩ := run_frame actions w
  exact ⟨h5, h1, h2, h3, h4⟩

/-- C9, as stated, fails, twice.  `constructor` is not a configured path, the link
with that target is activated without error and sets the navigation state, but the
lookup of the view placeholder yields the built-in function inherited from
`Object.prototype`, not undefined.  And `//` differs from the configured `/` by a
trailing slash only, but the link with that target raises an error: the browser
refuses the url, and the navigation state stays `/`. -/
theorem unmatched_constructor_renders_builtin :
    "constructor" ∉ paths [⟨"/", ⟨0⟩⟩] ∧
    (boot 0 ⟨[⟨"/", ⟨0⟩⟩]⟩ World.initial).map
        (fun x => (clickHandler 0 "constructor" ⟨false⟩ x.2).1.returned) = some true ∧
    (boot 0 ⟨[⟨"/", ⟨0⟩⟩]⟩ World.initial).map
        (fun x => ((clickHandler 0 "constructor" ⟨false⟩ x.2).1.world.routers[x.1]?).map
          Router.current) = some (some "constructor") ∧
    (boot 0 ⟨[⟨"/", ⟨0⟩⟩]⟩ World.initial).map
        (fun x => renderView 0 (clickHandler 0 "constructor" ⟨false⟩ x.2).1.world)
      = some (some (Value.builtin "constructor")) ∧
    Value.builtin "constructor" ≠ Value.undefined ∧
    "//" ∉ paths [⟨"/", ⟨0⟩⟩] ∧
    (boot 0 ⟨[⟨"/", ⟨0⟩⟩]⟩ World.initial).map
        (fun x => (clickHandler 0 "//" ⟨false⟩ x.2).1.returned) = some false ∧
    (boot 0 ⟨[⟨"/", ⟨0⟩⟩]⟩ World.initial).map
        (fun x => ((clickHandler 0 "//" ⟨false⟩ x.2).1.world.routers[x.1]?).map
          Router.current) = some (some "/") := by
  decide

/-- C9, amended: for every route list without the path `__proto__` and every string
`P` that is neither a configured path nor the name of a property of
`Object.prototype`, a `popstate` at `P` sets the navigation state to `P`, and, when
the browser accepts `P` as url of `pushState`, a link activation with target `P`
returns without error and sets the navigation state to `P`; in both cases the
lookup of the view placeholder then yields undefined. -/
theorem unmatched_path_renders_undefined (Vue : VueId) (options : Options) (w : World)
    (P : String) (e : Event) (h1 : w.installed = false)
    (h2 : (w.frameworks Vue).mixins = 0) (hproto : "__proto__" ∉ paths options.routes)
    (hP : P ∉ paths options.routes) (hb : P ∉ objectPrototypeKeys) :
    ∃ r w1, boot Vue options w = some (r, w1) ∧
      ((popstate P w1).routers[r]?).map Router.current = some P ∧
      renderView Vue (popstate P w1) = some Value.undefined ∧
      (w.accepts P = true →
        (clickHandler Vue P e w1).1.returned = true ∧
        ((clickHandler Vue P e w1).1.world.routers[r]?).map Router.current = some P ∧
        renderView Vue (clickHandler Vue P e w1).1.world = some Value.undefined) := by
  have hget := get_build_undefined options.routes P hproto hP hb
  refine ⟨w.routers.length, booted Vue options w, boot_eq Vue options w h1 h2, ?_, ?_, ?_⟩
  · rw [popstate_booted]
    rfl
  · rw [renderView_popstate, hget]
  · intro ha
    refine ⟨?_, ?_, ?_⟩
    · rw [clickHandler_booted Vue options w P e ha]
      rfl
    · rw [clickHandler_booted Vue options w P e ha]
      simp [Outcome.world, setCurrent]
    · rw [renderView_clicked Vue options w P e ha, hget]

/-- Witness for C9 (amended): a path that differs from the configured one by a
trailing slash, which the browser accepts. -/
theorem unmatched_path_renders_undefined_witness :
    World.initial.accepts "/about/" = true ∧
    (∃ r w1, boot 0 ⟨[⟨"/about", ⟨1⟩⟩]⟩ World.initial = some (r, w1) ∧
      ((popstate "/about/" w1).routers[r]?).map Router.current = some "/about/" ∧
      renderView 0 (popstate "/about/" w1) = some Value.undefined ∧
      (World.initial.accepts "/about/" = true →
        (clickHandler 0 "/about/" ⟨false⟩ w1).1.returned = true ∧
        ((clickHandler 0 "/about/" ⟨false⟩ w1).1.world.routers[r]?).map Router.current
          = some "/about/" ∧
        renderView 0 (clickHandler 0 "/about/" ⟨false⟩ w1).1.world
          = some Value.undefined)) ∧
    (boot 0 ⟨[⟨"/about", ⟨1⟩⟩]⟩ World.initial).map
        (fun x => renderView 0 (clickHandler 0 "/about/" ⟨false⟩ x.2).1.world)
      = some (some Value.undefined) :=
  ⟨by decide,
   unmatched_path_renders_undefined 0 ⟨[⟨"/about", ⟨1⟩⟩]⟩ World.initial "/about/" ⟨false⟩
    (by decide) (by decide) (by decide) (by decide) (by decide),
   by decide⟩

/-- C10: for every configuration, the constructor throws and produces no router
while `_Vue` is still undefined, that is before `install` has ever run; and on
every world where the flag was unset, the constructor succeeds after `install`. -/
theorem construct_requires_install (options : Options) (w : World) :
    (w._Vue = none → construct options w = Except.error Error.typeError) ∧
    (∀ (Vue : VueId) (o : Option PluginOptions), w.installed = false →
      ∃ w1, construct options (install Vue o w) = Except.ok (w.routers.length, w1) ∧
        w1.routers = w.routers ++ [Router.fresh options]) := by
  constructor
  · intro hv
    simp only [construct, hv]
  · intro Vue o hi
    obtain ⟨hv, hrs⟩ := install_fresh Vue o w hi
    have hc := construct_eq options (install Vue o w) Vue hv
    rw [hrs] at hc
    exact ⟨_, hc, rfl⟩

/-- Witness for C10: on the freshly loaded module the constructor throws, and after
`install` it succeeds. -/
theorem construct_requires_install_witness :
    World.initial._Vue = none ∧
    construct ⟨[⟨"/", ⟨0⟩⟩]⟩ World.initial = Except.error Error.typeError ∧
    World.initial.installed = false ∧
    (∃ w1, construct ⟨[⟨"/", ⟨0⟩⟩]⟩ (install 0 none World.initial)
        = Except.ok (World.initial.routers.length, w1) ∧
      w1.routers = World.initial.routers ++ [Router.fresh ⟨[⟨"/", ⟨0⟩⟩]⟩]) :=
  ⟨rfl, (construct_requires_install ⟨[⟨"/", ⟨0⟩⟩]⟩ World.initial).1 rfl, rfl,
   (construct_requires_install ⟨[⟨"/", ⟨0⟩⟩]⟩ World.initial).2 0 none rfl⟩

end MyVueRouter
